import Mathlib

/-!
Shallow embedding of the GemmaGuardian surveillance agent
(`src/SurveillanceAgent/modules/...`) together with proofs about the
behaviour its specification claims.

Strings are modelled as `List Char` (`Str`); machine timestamps as `Int`
(seconds); fractional confidences as `ℚ`.  Network and clock effects are
passed in explicitly as environment parameters, so every function here is
the pure core of the corresponding Python method.
-/

/-- Character list standing for a Python `str`. -/
abbrev Str := List Char

/-- Coerce a Lean string literal to the `Str` model. -/
def str (s : String) : Str := s.data

/-- Does `p` occur at the head of `s`?  (Helper for substring search.) -/
def headMatches : Str → Str → Bool
  | [], _ => true
  | _ :: _, [] => false
  | a :: as, b :: bs => a == b && headMatches as bs

/-- Python's `needle in hay` substring test. -/
def containsSub (needle : Str) : Str → Bool
  | [] => headMatches needle []
  | c :: rest => headMatches needle (c :: rest) || containsSub needle rest

/-- Python `str.lower()` restricted to the ASCII range used by the code. -/
def lowerStr (s : Str) : Str := s.map Char.toLower

/-- Python `str.upper()` restricted to the ASCII range used by the code. -/
def upperStr (s : Str) : Str := s.map Char.toUpper

/-- Characters removed by Python `str.strip()`. -/
def pyIsSpace (c : Char) : Bool :=
  c == ' ' || c == '\t' || c == '\n' || c == '\x0d' || c == '\x0b' || c == '\x0c'

/-- Python `str.strip()`. -/
def stripStr (s : Str) : Str :=
  ((s.dropWhile pyIsSpace).reverse.dropWhile pyIsSpace).reverse

/-- Python `any(kw in text for kw in kws)`. -/
def containsAnyOf (text : Str) (kws : List Str) : Bool :=
  kws.any fun kw => containsSub kw text

/- ## Domain entities (`modules/domain/entities.py`) -/

/-- `SecurityThreatLevel` enumeration. -/
inductive SecurityThreatLevel where
  | low
  | medium
  | high
  | critical
deriving DecidableEq, Repr

/-- `DetectionStatus` enumeration. -/
inductive DetectionStatus where
  | pending
  | in_progress
  | completed
  | failed
deriving DecidableEq, Repr

/-- `BoundingBox` dataclass. -/
structure BoundingBox where
  x : Int
  y : Int
  width : Int
  height : Int
  confidence : ℚ
deriving DecidableEq, Repr

/-- `PersonDetection` dataclass. -/
structure PersonDetection where
  timestamp : Int
  bounding_box : BoundingBox
  frame_number : Nat
  confidence : ℚ
deriving DecidableEq, Repr

/-- `VideoClip` dataclass. -/
structure VideoClip where
  file_path : Str
  start_time : Int
  duration : ℚ
  frame_count : Nat
  resolution : Nat × Nat
  trigger_detection : PersonDetection
deriving DecidableEq, Repr

/-- `SecurityAnalysis` dataclass. -/
structure SecurityAnalysis where
  video_clip : VideoClip
  analysis_text : Str
  threat_level : SecurityThreatLevel
  confidence : ℚ
  keywords : List Str
  timestamp : Int
deriving DecidableEq, Repr

/-- `SecurityAnalysis.is_threat_detected`:
`self.threat_level in [MEDIUM, HIGH, CRITICAL]`. -/
def is_threat_detected (a : SecurityAnalysis) : Bool :=
  [SecurityThreatLevel.medium, SecurityThreatLevel.high,
    SecurityThreatLevel.critical].contains a.threat_level

/-- `MonitoringSession` dataclass. -/
structure MonitoringSession where
  session_id : Str
  start_time : Int
  end_time : Option Int
  detections : List PersonDetection
  video_clips : List VideoClip
  analyses : List SecurityAnalysis
  status : DetectionStatus
deriving DecidableEq, Repr

/-- `MonitoringSession.threat_count`:
`sum(1 for analysis in self.analyses if analysis.is_threat_detected)`. -/
def threat_count (s : MonitoringSession) : Nat :=
  (s.analyses.map fun a => if is_threat_detected a then 1 else 0).sum

/- ## Notification gate (`modules/infrastructure/mobile_notifications.py`) -/

/-- The `threat_levels` ordinal dictionary inside `should_notify`
(`LOW: 1, MEDIUM: 2, HIGH: 3, CRITICAL: 4`). -/
def threatOrdinal : SecurityThreatLevel → Nat
  | .low => 1
  | .medium => 2
  | .high => 3
  | .critical => 4

/-- `MobileNotificationService.should_notify`.  `enablePush` and `minLevel`
model `self.enable_push_notifications` (always `True` as constructed) and
`self.min_threat_level`. -/
def should_notify (enablePush : Bool) (minLevel : SecurityThreatLevel)
    (a : SecurityAnalysis) : Bool :=
  if !enablePush then false
  else if !is_threat_detected a then false
  else
    let analysis_level := threatOrdinal a.threat_level
    let min_level := threatOrdinal minLevel
    decide (analysis_level ≥ min_level)

/- ## Theorems: detection / notification gates -/

/-- C8: `is_threat_detected` holds exactly when the threat level is strictly
above LOW (true for MEDIUM, HIGH, CRITICAL; false for LOW), and
`threat_count` counts exactly the analyses whose level is above LOW. -/
theorem threat_detected_above_low :
    (∀ a : SecurityAnalysis,
      is_threat_detected a = true ↔ threatOrdinal a.threat_level > threatOrdinal .low) ∧
    (∀ a : SecurityAnalysis,
      is_threat_detected a =
        (a.threat_level = .medium ∨ a.threat_level = .high ∨ a.threat_level = .critical)) ∧
    (∀ s : MonitoringSession,
      threat_count s =
        (s.analyses.filter fun a => threatOrdinal a.threat_level > threatOrdinal .low).length) := by
  refine ⟨?_, ?_, ?_⟩
  · intro a
    cases h : a.threat_level <;>
      simp [is_threat_detected, threatOrdinal, h]
  · intro a
    cases h : a.threat_level <;>
      simp [is_threat_detected, h]
  · intro s
    unfold threat_count
    induction s.analyses with
    | nil => rfl
    | cons a rest ih =>
      by_cases h : is_threat_detected a
      · have hlv : threatOrdinal a.threat_level > threatOrdinal .low := by
          cases hl : a.threat_level <;>
            simp [is_threat_detected, hl, threatOrdinal] at h ⊢
        simp [h, hlv, List.filter, ih, Nat.add_comm]
      · have hlv : ¬ threatOrdinal a.threat_level > threatOrdinal .low := by
          cases hl : a.threat_level <;>
            simp [is_threat_detected, hl, threatOrdinal] at h ⊢
        simp [h, hlv, List.filter, ih]

/-- C1: with push notifications enabled (as the service is constructed),
`should_notify` is true iff the analysis detects a threat and the ordinal of
its level (LOW=1, MEDIUM=2, HIGH=3, CRITICAL=4) is at least the ordinal of
the configured minimum; in particular MEDIUM against minimum HIGH is false
and HIGH against minimum MEDIUM is true. -/
theorem should_notify_ordinal_gate :
    (∀ (minLevel : SecurityThreatLevel) (a : SecurityAnalysis),
      should_notify true minLevel a =
        (is_threat_detected a && decide (threatOrdinal a.threat_level ≥ threatOrdinal minLevel))) ∧
    (∀ a : SecurityAnalysis, a.threat_level = .medium →
      should_notify true .high a = false) ∧
    (∀ a : SecurityAnalysis, a.threat_level = .high →
      should_notify true .medium a = true) := by
  refine ⟨?_, ?_, ?_⟩
  · intro minLevel a
    cases h : a.threat_level <;> cases minLevel <;>
      simp [should_notify, is_threat_detected, threatOrdinal, h]
  · intro a h
    simp [should_notify, is_threat_detected, threatOrdinal, h]
  · intro a h
    simp [should_notify, is_threat_detected, threatOrdinal, h]

/-- Witness for `should_notify_ordinal_gate` at a concrete analysis. -/
theorem should_notify_ordinal_gate_witness :
    should_notify true .high
      { video_clip :=
          { file_path := str "clip.mp4", start_time := 0, duration := 30,
            frame_count := 900, resolution := (640, 480),
            trigger_detection :=
              { timestamp := 0,
                bounding_box :=
                  { x := 0, y := 0, width := 40, height := 90, confidence := 9/10 },
                frame_number := 1, confidence := 9/10 } },
        analysis_text := str "person loitering", threat_level := .medium,
        confidence := 7/10, keywords := [str "person"], timestamp := 5 } = false := by
  exact (should_notify_ordinal_gate.2.1) _ rfl

/- ## Alert delivery (`MobileNotificationService.send_security_alert`) -/

/-- Static configuration of the notification service
(`self.notification_url`, `self.webhook_urls`, `self.min_threat_level`,
`self.enable_push_notifications`). -/
structure NotifyConfig where
  notification_url : Option Str
  webhook_urls : List Str
  min_threat_level : SecurityThreatLevel
  enable_push_notifications : Bool

/-- Network outcomes for one dispatch: whether the UDP broadcast succeeded on
some port, the HTTP status outcome of each webhook POST (true = 200), and of
the primary HTTP POST. -/
structure DeliveryEnv where
  broadcastOk : Bool
  webhookOk : Str → Bool
  httpOk : Bool

/-- The observable outcome of one `send_security_alert` call: which channels
were attempted and the returned boolean. -/
structure SendOutcome where
  attemptedBroadcast : Bool
  attemptedWebhooks : Bool
  attemptedHttp : Bool
  result : Bool
deriving DecidableEq, Repr

/-- `_send_webhook_notifications`: posts to every configured URL and returns
`success_count > 0`. -/
def send_webhook_notifications (cfg : NotifyConfig) (env : DeliveryEnv) : Bool :=
  ((cfg.webhook_urls.filter env.webhookOk).length) > 0

/-- `MobileNotificationService.send_security_alert`: gate on `should_notify`,
then broadcast, then (if not yet successful and webhooks are configured) the
webhooks, then (if still unsuccessful and a primary URL is configured) the
single HTTP POST. -/
def send_security_alert (cfg : NotifyConfig) (env : DeliveryEnv)
    (a : SecurityAnalysis) : SendOutcome :=
  if !should_notify cfg.enable_push_notifications cfg.min_threat_level a then
    { attemptedBroadcast := false, attemptedWebhooks := false,
      attemptedHttp := false, result := false }
  else
    let success₀ := env.broadcastOk
    let tryWebhooks := !cfg.webhook_urls.isEmpty && !success₀
    let success₁ :=
      if tryWebhooks then success₀ || send_webhook_notifications cfg env
      else success₀
    let tryHttp := cfg.notification_url.isSome && !success₁
    let success₂ := if tryHttp then env.httpOk else success₁
    { attemptedBroadcast := true, attemptedWebhooks := tryWebhooks,
      attemptedHttp := tryHttp, result := success₂ }

/-- C2: the dispatcher attempts broadcast first, webhooks only when broadcast
failed, HTTP only when broadcast failed and no attempted webhook succeeded;
the returned boolean is the OR of the attempted channels' outcomes; and when
the `should_notify` gate rejects, nothing is attempted and the result is
false. -/
theorem send_alert_channel_order :
    ∀ (cfg : NotifyConfig) (env : DeliveryEnv) (a : SecurityAnalysis),
      (let o := send_security_alert cfg env a;
        (o.attemptedWebhooks = true →
          o.attemptedBroadcast = true ∧ env.broadcastOk = false) ∧
        (o.attemptedHttp = true →
          o.attemptedBroadcast = true ∧ env.broadcastOk = false ∧
            ¬(o.attemptedWebhooks = true ∧ send_webhook_notifications cfg env = true)) ∧
        (o.result =
          ((o.attemptedBroadcast && env.broadcastOk) ||
            (o.attemptedWebhooks && send_webhook_notifications cfg env) ||
            (o.attemptedHttp && env.httpOk))) ∧
        (should_notify cfg.enable_push_notifications cfg.min_threat_level a = false →
          o = { attemptedBroadcast := false, attemptedWebhooks := false,
                attemptedHttp := false, result := false })) := by
  intro cfg env a
  by_cases hg : should_notify cfg.enable_push_notifications cfg.min_threat_level a
  · by_cases hb : env.broadcastOk
    · simp [send_security_alert, hg, hb]
    · by_cases hw : cfg.webhook_urls.isEmpty
      · by_cases hu : cfg.notification_url.isSome
        · simp [send_security_alert, hg, hb, hw, hu]
        · simp [send_security_alert, hg, hb, hw, hu]
      · by_cases hs : send_webhook_notifications cfg env
        · simp [send_security_alert, hg, hb, hw, hs]
        · by_cases hu : cfg.notification_url.isSome
          · simp [send_security_alert, hg, hb, hw, hs, hu]
          · simp [send_security_alert, hg, hb, hw, hs, hu]
  · simp [send_security_alert, hg]

/-- A concrete HIGH-threat analysis used to instantiate theorems. -/
def sampleAnalysis : SecurityAnalysis :=
  { video_clip :=
      { file_path := str "recordings/front_door.mp4", start_time := 100,
        duration := 30, frame_count := 900, resolution := (640, 480),
        trigger_detection :=
          { timestamp := 100,
            bounding_box :=
              { x := 10, y := 10, width := 40, height := 90, confidence := 9/10 },
            frame_number := 3, confidence := 9/10 } },
    analysis_text := str "unauthorized person at the door",
    threat_level := .high, confidence := 8/10,
    keywords := [str "person", str "door"], timestamp := 130 }

/-- Witness for `send_alert_channel_order`: with broadcast failing and one
webhook configured, the webhook channel is attempted and broadcast indeed
failed. -/
theorem send_alert_channel_order_witness :
    ((send_security_alert
        { notification_url := some (str "http://phone:8080/notify"),
          webhook_urls := [str "http://hook:9000"],
          min_threat_level := .medium, enable_push_notifications := true }
        { broadcastOk := false, webhookOk := fun _ => true, httpOk := false }
        sampleAnalysis).attemptedBroadcast = true) ∧
    ((false : Bool) = false) := by
  exact (send_alert_channel_order
    { notification_url := some (str "http://phone:8080/notify"),
      webhook_urls := [str "http://hook:9000"],
      min_threat_level := .medium, enable_push_notifications := true }
    { broadcastOk := false, webhookOk := fun _ => true, httpOk := false }
    sampleAnalysis).1 rfl

/- ## Threat evaluation (`modules/domain/services.py`, `SecurityThreatEvaluator`) -/

/-- The `safe_indicators` list of `_fallback_keyword_evaluation`. -/
def safe_indicators : List Str :=
  [str "no security concerns detected", str "normal scene",
   str "no people or suspicious activity visible", str "no suspicious activity",
   str "all frames show normal", str "normal activity",
   str "no threats detected", str "appears normal"]

/-- The `critical_keywords` list. -/
def critical_keywords : List Str :=
  [str "weapon", str "violence", str "attack", str "break-in", str "forced entry"]

/-- The `high_keywords` list. -/
def high_keywords : List Str :=
  [str "suspicious", str "unauthorized", str "trespassing"]

/-- The `negative_context` list. -/
def negative_context : List Str :=
  [str "no suspicious", str "not suspicious", str "no unauthorized"]

/-- The `medium_keywords` list. -/
def medium_keywords : List Str :=
  [str "unusual", str "loitering", str "investigation"]

/-- `SecurityThreatEvaluator._fallback_keyword_evaluation`. -/
def fallback_keyword_evaluation (analysis_text : Str) : SecurityThreatLevel :=
  let text_lower := lowerStr analysis_text
  if containsAnyOf text_lower safe_indicators then .low
  else if containsAnyOf text_lower critical_keywords then .critical
  else if containsAnyOf text_lower high_keywords &&
      !containsAnyOf text_lower negative_context then .high
  else if containsAnyOf text_lower medium_keywords then .medium
  else .low

/-- Mapping of a 200-response body to a level in `evaluate_threat_level`:
`strip().upper()` then case membership, defaulting to LOW. -/
def classifyThreatResponse (resp : Str) : SecurityThreatLevel :=
  let threat_response := upperStr (stripStr resp)
  if containsSub (str "CRITICAL") threat_response then .critical
  else if containsSub (str "HIGH") threat_response then .high
  else if containsSub (str "MEDIUM") threat_response then .medium
  else .low

/-- Outcome of one `requests.post` to the backend: an HTTP reply with status
and response body, a `requests.exceptions.Timeout`, or any other exception. -/
inductive AttemptOutcome where
  | reply (status : Nat) (response : Str)
  | timeoutExc
  | otherExc
deriving DecidableEq, Repr

/-- Timeout (seconds) passed to attempt `i` of the retry loop:
`60 + attempt * 30`. -/
def attemptTimeout (attempt : Nat) : Nat := 60 + attempt * 30

/-- `SecurityThreatEvaluator.evaluate_threat_level`, with the three network
outcomes supplied by the environment.  Attempt `i` (i = 0,1,2) observes
`oᵢ`; a 200 reply classifies and returns; any failure before the last
attempt retries; on the last attempt a non-200 reply or a timeout breaks out
to the trailing `return LOW`, while any other exception is re-raised, caught
by the outer handler, and answered with `fallback_keyword_evaluation`. -/
def evaluate_threat_level (analysis_text : Str)
    (o₀ o₁ o₂ : AttemptOutcome) : SecurityThreatLevel :=
  let lastAttempt : AttemptOutcome → SecurityThreatLevel := fun o =>
    match o with
    | .reply s r => if s = 200 then classifyThreatResponse r else .low
    | .timeoutExc => .low
    | .otherExc => fallback_keyword_evaluation analysis_text
  let earlyAttempt : AttemptOutcome → SecurityThreatLevel → SecurityThreatLevel :=
    fun o next =>
      match o with
      | .reply s r => if s = 200 then classifyThreatResponse r else next
      | _ => next
  earlyAttempt o₀ (earlyAttempt o₁ (lastAttempt o₂))

/-- The body of a successful attempt, as seen by the retry loop: `some r`
for a 200 reply, `none` for everything else. -/
def replySuccess : AttemptOutcome → Option Str
  | .reply s r => if s = 200 then some r else none
  | _ => none

/-- Number of backend attempts `evaluate_threat_level` makes (the loop stops
early only on a 200 reply). -/
def evaluateAttemptsUsed (o₀ o₁ : AttemptOutcome) : Nat :=
  if (replySuccess o₀).isSome then 1
  else if (replySuccess o₁).isSome then 2
  else 3

/- ## Theorems: threat classification -/

/-- C5: the fallback keyword classifier checks explicit no-concern phrases
first (LOW), then weapon/violence/break-in vocabulary (CRITICAL), then
suspicious/unauthorized/trespassing vocabulary absent a negation (HIGH),
then unusual/loitering vocabulary (MEDIUM), else LOW; in particular
"weapon" classifies CRITICAL and "no security concerns detected" LOW. -/
theorem fallback_classifier_cascade :
    (∀ text : Str,
      fallback_keyword_evaluation text =
        (if containsAnyOf (lowerStr text) safe_indicators then .low
         else if containsAnyOf (lowerStr text) critical_keywords then .critical
         else if containsAnyOf (lowerStr text) high_keywords &&
             !containsAnyOf (lowerStr text) negative_context then .high
         else if containsAnyOf (lowerStr text) medium_keywords then .medium
         else .low)) ∧
    fallback_keyword_evaluation (str "weapon") = .critical ∧
    fallback_keyword_evaluation (str "no security concerns detected") = .low := by
  refine ⟨fun _ => rfl, by decide, by decide⟩

/-- C4 (counterexample): when all three attempts time out the evaluator
returns LOW directly rather than the keyword fallback (which would say
CRITICAL for "weapon"), and a non-timeout error on the first attempt does
not abort the retries — the second attempt still runs and classifies. -/
theorem evaluate_threat_level_exhaustion_counterexample :
    evaluate_threat_level (str "weapon") .timeoutExc .timeoutExc .timeoutExc =
      SecurityThreatLevel.low ∧
    fallback_keyword_evaluation (str "weapon") = SecurityThreatLevel.critical ∧
    SecurityThreatLevel.low ≠ SecurityThreatLevel.critical ∧
    evaluate_threat_level (str "weapon") .otherExc
      (.reply 200 (str "HIGH")) .timeoutExc = SecurityThreatLevel.high := by
  refine ⟨rfl, by decide, by decide, by decide⟩

/-- C4 (amended): up to three attempts with timeouts 60s/90s/120s; any
failed attempt (timeout, non-200 status, or other exception) before the
third leads to the next attempt; a 200 reply classifies and returns; when
the attempts are exhausted the result is LOW if the third attempt timed out
or returned non-200, and the keyword fallback exactly when the third
attempt raised a non-timeout exception; no exception escapes. -/
theorem evaluate_threat_level_retry_policy :
    (attemptTimeout 0 = 60 ∧ attemptTimeout 1 = 90 ∧ attemptTimeout 2 = 120) ∧
    (∀ o₀ o₁ : AttemptOutcome, evaluateAttemptsUsed o₀ o₁ ≤ 3) ∧
    (∀ (text : Str) (o₀ o₁ o₂ : AttemptOutcome),
      evaluate_threat_level text o₀ o₁ o₂ =
        (match replySuccess o₀ with
         | some r => classifyThreatResponse r
         | none =>
           match replySuccess o₁ with
           | some r => classifyThreatResponse r
           | none =>
             match replySuccess o₂ with
             | some r => classifyThreatResponse r
             | none =>
               if o₂ = .otherExc then fallback_keyword_evaluation text
               else .low)) := by
  refine ⟨⟨rfl, rfl, rfl⟩, ?_, ?_⟩
  · intro o₀ o₁
    unfold evaluateAttemptsUsed
    by_cases h₀ : (replySuccess o₀).isSome <;>
      by_cases h₁ : (replySuccess o₁).isSome <;>
        simp [h₀, h₁]
  · intro text o₀ o₁ o₂
    have hlast : ∀ o₂ : AttemptOutcome,
        (match o₂ with
          | .reply s r => if s = 200 then classifyThreatResponse r else .low
          | .timeoutExc => .low
          | .otherExc => fallback_keyword_evaluation text) =
        (match replySuccess o₂ with
         | some r => classifyThreatResponse r
         | none =>
           if o₂ = .otherExc then fallback_keyword_evaluation text
           else .low) := by
      intro o
      cases o with
      | reply s r => by_cases h : s = 200 <;> simp [replySuccess, h]
      | timeoutExc => simp [replySuccess]
      | otherExc => simp [replySuccess]
    cases o₀ with
    | reply s r =>
      by_cases h : s = 200
      · simp [evaluate_threat_level, replySuccess, h]
      · cases o₁ with
        | reply s' r' =>
          by_cases h' : s' = 200
          · simp [evaluate_threat_level, replySuccess, h, h']
          · simp [evaluate_threat_level, replySuccess, h, h', hlast o₂]
        | timeoutExc => simp [evaluate_threat_level, replySuccess, h, hlast o₂]
        | otherExc => simp [evaluate_threat_level, replySuccess, h, hlast o₂]
    | timeoutExc =>
      cases o₁ with
      | reply s' r' =>
        by_cases h' : s' = 200
        · simp [evaluate_threat_level, replySuccess, h']
        · simp [evaluate_threat_level, replySuccess, h', hlast o₂]
      | timeoutExc => simp [evaluate_threat_level, replySuccess, hlast o₂]
      | otherExc => simp [evaluate_threat_level, replySuccess, hlast o₂]
    | otherExc =>
      cases o₁ with
      | reply s' r' =>
        by_cases h' : s' = 200
        · simp [evaluate_threat_level, replySuccess, h']
        · simp [evaluate_threat_level, replySuccess, h', hlast o₂]
      | timeoutExc => simp [evaluate_threat_level, replySuccess, hlast o₂]
      | otherExc => simp [evaluate_threat_level, replySuccess, hlast o₂]

/- ## Video analysis (`modules/infrastructure/ollama_client.py`) -/

/-- `OllamaSecurityAnalyzer._calculate_confidence`. -/
def calculate_confidence (analysis_text : Str) (keywords : List Str) : ℚ :=
  let base_confidence : ℚ := 7/10
  let text_length_factor := min ((analysis_text.length : ℚ) / 200) (2/10)
  let keyword_factor := min ((keywords.length : ℚ) / 5) (1/10)
  min (base_confidence + text_length_factor + keyword_factor) 1

/-- `OllamaSecurityAnalyzer._create_failed_analysis` (threat level LOW,
confidence 0.0, empty keyword list, text `Analysis failed: <message>`). -/
def create_failed_analysis (video_clip : VideoClip) (error_message : Str)
    (now : Int) : SecurityAnalysis :=
  { video_clip := video_clip,
    analysis_text := str "Analysis failed: " ++ error_message,
    threat_level := .low, confidence := 0, keywords := [], timestamp := now }

/-- Environment of one `analyze_video` run: the frames `extract_frames`
produced, the text `_analyze_frames_individually` returned (`none` for
Python `None`), the classification and keywords the threat evaluator
produced, an exception escaping the body (with its message) if any, and the
clock. -/
structure AnalyzeVideoEnv where
  frames : List Nat
  analysis_text : Option Str
  threat_level : SecurityThreatLevel
  keywords : List Str
  raised : Option Str
  now : Int

/-- `OllamaSecurityAnalyzer.analyze_video`: zero extracted frames, a missing
or empty analysis text, or an exception all produce a failed analysis via
`create_failed_analysis`; otherwise the full `SecurityAnalysis` is built. -/
def analyze_video (clip : VideoClip) (env : AnalyzeVideoEnv) : SecurityAnalysis :=
  match env.raised with
  | some msg => create_failed_analysis clip (str "Analysis error: " ++ msg) env.now
  | none =>
    if env.frames.isEmpty then
      create_failed_analysis clip (str "Failed to extract frames") env.now
    else
      match env.analysis_text with
      | none =>
        create_failed_analysis clip
          (str "Failed to get AI analysis after retries") env.now
      | some t =>
        if t.isEmpty then
          create_failed_analysis clip
            (str "Failed to get AI analysis after retries") env.now
        else
          { video_clip := clip, analysis_text := t,
            threat_level := env.threat_level,
            confidence := calculate_confidence t env.keywords,
            keywords := env.keywords, timestamp := env.now }

/-- Decimal rendering of a natural number (for the `Batch {i+1}` labels). -/
def natToStr (n : Nat) : Str := Nat.toDigits 10 n

/-- `combined_summaries` inside `_consolidate_analyses`:
`"\n\n".join(f"Batch {i+1}: {summary}" ...)`. -/
def combined_summaries (batch_summaries : List Str) : Str :=
  List.intercalate (str "\n\n")
    (batch_summaries.enum.map fun p =>
      str "Batch " ++ natToStr (p.1 + 1) ++ str ": " ++ p.2)

/-- Outcome of the consolidation POST: an HTTP reply whose parsed
`response` field is `response`, or an exception. -/
inductive ConsolidationOutcome where
  | reply (status : Nat) (response : Str)
  | exc
deriving DecidableEq, Repr

/-- `OllamaSecurityAnalyzer._consolidate_analyses`: a 200 reply with a
non-empty stripped body is returned as the consolidated text; a 200 reply
with an empty body or any non-200 status falls back to
`"Multiple batch summaries:\n" + combined_summaries`; an exception falls
back to `"Batch summaries (consolidation failed):\n"` plus the summaries
joined with newlines. -/
def consolidate_analyses (batch_summaries : List Str)
    (o : ConsolidationOutcome) : Str :=
  match o with
  | .exc =>
    str "Batch summaries (consolidation failed):\n" ++
      List.intercalate (str "\n") batch_summaries
  | .reply status r =>
    if status = 200 then
      let consolidated := stripStr r
      if !consolidated.isEmpty then consolidated
      else str "Multiple batch summaries:\n" ++ combined_summaries batch_summaries
    else str "Multiple batch summaries:\n" ++ combined_summaries batch_summaries

/- ## Theorems: analysis failure handling -/

/-- C3 (counterexample): on a clip with zero extracted frames the ollama
analyzer returns LOW with confidence 0 but an *empty* keyword list — the
keyword `analysis_failed` is not present. -/
theorem analyze_video_zero_frames_counterexample :
    (let r := analyze_video sampleAnalysis.video_clip
        { frames := [], analysis_text := none, threat_level := .low,
          keywords := [], raised := none, now := 42 };
      r.threat_level = .low ∧ r.confidence = 0 ∧ r.keywords = [] ∧
        ¬ (str "analysis_failed") ∈ r.keywords ∧
        r.analysis_text = str "Analysis failed: Failed to extract frames") := by
  refine ⟨rfl, by decide, rfl, by decide, by decide⟩

/-- C3 (amended): on zero extracted frames (and no exception)
`analyze_video` does not raise and returns a failed analysis: threat level
LOW, confidence 0, empty keywords, text
`Analysis failed: Failed to extract frames`. -/
theorem analyze_video_zero_frames :
    ∀ (clip : VideoClip) (env : AnalyzeVideoEnv),
      env.raised = none → env.frames = [] →
      (analyze_video clip env).threat_level = .low ∧
      (analyze_video clip env).confidence = 0 ∧
      (analyze_video clip env).keywords = [] ∧
      (analyze_video clip env).analysis_text =
        str "Analysis failed: Failed to extract frames" ∧
      (analyze_video clip env).video_clip = clip := by
  intro clip env h₁ h₂
  simp [analyze_video, create_failed_analysis, h₁, h₂, str]

/-- Witness for `analyze_video_zero_frames` at a concrete clip and
environment. -/
theorem analyze_video_zero_frames_witness :
    ((none : Option Str) = none ∧ ([] : List Nat) = []) ∧
    (analyze_video sampleAnalysis.video_clip
      { frames := [], analysis_text := none, threat_level := .critical,
        keywords := [str "weapon"], raised := none, now := 7 }).threat_level =
      .low := by
  exact ⟨⟨rfl, rfl⟩,
    (analyze_video_zero_frames sampleAnalysis.video_clip
      { frames := [], analysis_text := none, threat_level := .critical,
        keywords := [str "weapon"], raised := none, now := 7 } rfl rfl).1⟩

/-- C9 (counterexample): with two batch summaries and a failing (non-200)
consolidation request, `_consolidate_analyses` returns the combined
multi-summary concatenation, not the first batch's summary. -/
theorem consolidate_analyses_counterexample :
    consolidate_analyses [str "a", str "b"] (.reply 500 (str "")) =
      str "Multiple batch summaries:\nBatch 1: a\n\nBatch 2: b" ∧
    consolidate_analyses [str "a", str "b"] (.reply 500 (str "")) ≠ str "a" := by
  refine ⟨by decide, by decide⟩

/-- C9 (amended): whenever the consolidation request fails — non-200
status, empty stripped response, or exception — the step returns a
deterministic concatenation of all batch summaries (never discarding them
and never raising): `Multiple batch summaries:` + the enumerated combined
text for HTTP failures, `Batch summaries (consolidation failed):` + the
newline-joined summaries for exceptions. -/
theorem consolidate_analyses_fallback :
    (∀ (summaries : List Str) (st : Nat) (r : Str), st ≠ 200 →
      consolidate_analyses summaries (.reply st r) =
        str "Multiple batch summaries:\n" ++ combined_summaries summaries) ∧
    (∀ (summaries : List Str) (r : Str), stripStr r = [] →
      consolidate_analyses summaries (.reply 200 r) =
        str "Multiple batch summaries:\n" ++ combined_summaries summaries) ∧
    (∀ summaries : List Str,
      consolidate_analyses summaries .exc =
        str "Batch summaries (consolidation failed):\n" ++
          List.intercalate (str "\n") summaries) := by
  refine ⟨?_, ?_, fun _ => rfl⟩
  · intro summaries st r h
    simp [consolidate_analyses, h]
  · intro summaries r h
    simp [consolidate_analyses, h]

/-- Witness for `consolidate_analyses_fallback` at concrete inputs. -/
theorem consolidate_analyses_fallback_witness :
    (500 : Nat) ≠ 200 ∧
    consolidate_analyses [str "first", str "second"] (.reply 500 (str "x")) =
      str "Multiple batch summaries:\n" ++
        combined_summaries [str "first", str "second"] := by
  exact ⟨by decide,
    consolidate_analyses_fallback.1 [str "first", str "second"] 500 (str "x")
      (by decide)⟩

/- ## Detection gate (`modules/application/use_cases.py`, `PersonDetectionUseCase`) -/

/-- `PersonDetectionUseCase._should_process_detection`: `True` when no
detection was admitted yet, otherwise `now - last ≥ detection_cooldown`. -/
def should_process_detection (last_detection_time : Option Int)
    (detection_cooldown : Int) (now : Int) : Bool :=
  match last_detection_time with
  | none => true
  | some t => decide (now - t ≥ detection_cooldown)

/-- `PersonDetectionUseCase.process_frame` (cooldown logic): detection
results are filtered through `is_detection_valid`; a non-empty filtered
batch passing the cooldown check is returned and stamps
`last_detection_time := now`; otherwise the call returns `[]` and leaves
the state alone. -/
def process_frame (valid : PersonDetection → Bool) (detection_cooldown : Int)
    (last_detection_time : Option Int) (now : Int)
    (detections : List PersonDetection) :
    List PersonDetection × Option Int :=
  let valid_detections := detections.filter valid
  if !valid_detections.isEmpty &&
      should_process_detection last_detection_time detection_cooldown now then
    (valid_detections, some now)
  else
    ([], last_detection_time)

/-- Times at which `process_frame` admits a batch, over a sequence of calls
`(now, detections)` threading `last_detection_time`. -/
def admitted_times (valid : PersonDetection → Bool) (detection_cooldown : Int) :
    Option Int → List (Int × List PersonDetection) → List Int
  | _, [] => []
  | last, (now, dets) :: rest =>
    let r := process_frame valid detection_cooldown last now dets
    if r.1.isEmpty then admitted_times valid detection_cooldown r.2 rest
    else now :: admitted_times valid detection_cooldown r.2 rest

lemma process_frame_empty_or_admit (valid : PersonDetection → Bool)
    (c : Int) (last : Option Int) (now : Int) (dets : List PersonDetection) :
    process_frame valid c last now dets = (dets.filter valid, some now) ∧
      ¬(dets.filter valid).isEmpty ∧
      should_process_detection last c now = true ∨
    process_frame valid c last now dets = ([], last) ∧
      ((dets.filter valid).isEmpty ∨ should_process_detection last c now = false) := by
  unfold process_frame
  by_cases h₁ : (dets.filter valid).isEmpty
  · right
    simp [h₁]
  · by_cases h₂ : should_process_detection last c now
    · left
      simp [h₁, h₂]
    · right
      simp [h₁, h₂]

lemma admitted_times_lower (valid : PersonDetection → Bool) {c : Int}
    (hc : 0 ≤ c) :
    ∀ (trace : List (Int × List PersonDetection)) (t₀ : Int),
      ∀ t ∈ admitted_times valid c (some t₀) trace, t₀ + c ≤ t := by
  intro trace
  induction trace with
  | nil => intro t₀ t ht; simp [admitted_times] at ht
  | cons p rest ih =>
    intro t₀ t ht
    obtain ⟨now, dets⟩ := p
    rcases process_frame_empty_or_admit valid c (some t₀) now dets with
      ⟨heq, hne, hsp⟩ | ⟨heq, _⟩
    · have hcool : c ≤ now - t₀ := by
        simpa [should_process_detection, ge_iff_le] using hsp
      rw [admitted_times, heq] at ht
      simp [hne] at ht
      rcases ht with rfl | ht
      · omega
      · have := ih now t ht
        omega
    · rw [admitted_times, heq] at ht
      simp at ht
      exact ih t₀ t ht

lemma admitted_times_pairwise (valid : PersonDetection → Bool) {c : Int}
    (hc : 0 ≤ c) :
    ∀ (trace : List (Int × List PersonDetection)) (last : Option Int),
      List.Pairwise (fun a b => a + c ≤ b) (admitted_times valid c last trace) := by
  intro trace
  induction trace with
  | nil => intro last; simp [admitted_times]
  | cons p rest ih =>
    intro last
    obtain ⟨now, dets⟩ := p
    rcases process_frame_empty_or_admit valid c last now dets with
      ⟨heq, hne, _⟩ | ⟨heq, _⟩
    · rw [admitted_times, heq]
      simp [hne]
      refine ⟨fun t ht => ?_, ih (some now)⟩
      exact admitted_times_lower valid hc rest now t ht
    · rw [admitted_times, heq]
      simp
      exact ih last

/-- C7: the detection gate admits a batch only when the filtered detections
are non-empty and the cooldown has elapsed (or no admission happened yet),
each admission stamps the admission time, rejected calls return `[]` and
leave the state unchanged, and — for any sequence of calls — any two
admission times are at least the cooldown interval apart. -/
theorem detection_gate_cooldown (c : Int) (hc : 0 ≤ c) :
    (∀ (valid : PersonDetection → Bool) (last : Option Int) (now : Int)
        (dets : List PersonDetection),
      (let r := process_frame valid c last now dets;
        (r.1 ≠ [] →
          dets.filter valid ≠ [] ∧
          should_process_detection last c now = true ∧
          r.1 = dets.filter valid ∧ r.2 = some now) ∧
        ((dets.filter valid = [] ∨ should_process_detection last c now = false) →
          r.1 = [] ∧ r.2 = last))) ∧
    (∀ now : Int, should_process_detection none c now = true) ∧
    (∀ t₀ now : Int,
      should_process_detection (some t₀) c now = decide (c ≤ now - t₀)) ∧
    (∀ (valid : PersonDetection → Bool) (last : Option Int)
        (trace : List (Int × List PersonDetection)),
      List.Pairwise (fun a b => a + c ≤ b) (admitted_times valid c last trace)) := by
  refine ⟨?_, fun _ => rfl, ?_, ?_⟩
  · intro valid last now dets
    rcases process_frame_empty_or_admit valid c last now dets with
      ⟨heq, hne, hsp⟩ | ⟨heq, hrej⟩
    · constructor
      · intro _
        rw [heq]
        refine ⟨?_, hsp, rfl, rfl⟩
        simpa [List.isEmpty_iff] using hne
      · intro hcontra
        rcases hcontra with h | h
        · simp [h] at hne
        · rw [hsp] at h; cases h
    · constructor
      · intro hr
        rw [heq] at hr
        simp at hr
      · intro _
        rw [heq]
        exact ⟨rfl, rfl⟩
  · intro t₀ now
    simp [should_process_detection, ge_iff_le]
  · intro valid last trace
    exact admitted_times_pairwise valid hc trace last

/-- Witness for `detection_gate_cooldown` at the default 5-second cooldown. -/
theorem detection_gate_cooldown_witness :
    (0 : Int) ≤ 5 ∧ should_process_detection none 5 88 = true :=
  ⟨by decide, (detection_gate_cooldown 5 (by decide)).2.1 88⟩

/- ## Session aggregation (`modules/application/use_cases.py`,
`MonitoringSessionUseCase`) -/

/-- One call made to the session repository. -/
inductive RepoOp where
  | save (s : MonitoringSession)
  | update (s : MonitoringSession)
deriving DecidableEq, Repr

/-- State of `MonitoringSessionUseCase`: `self.current_session` plus the
log of repository calls made so far. -/
structure SessionUseCaseState where
  current_session : Option MonitoringSession
  repo_ops : List RepoOp
deriving DecidableEq, Repr

/-- `MonitoringSessionUseCase.add_detection_to_session`. -/
def add_detection_to_session (st : SessionUseCaseState)
    (detection : PersonDetection) : SessionUseCaseState :=
  match st.current_session with
  | none => st
  | some s =>
    let s' := { s with detections := s.detections ++ [detection] }
    { current_session := some s', repo_ops := st.repo_ops ++ [.update s'] }

/-- `MonitoringSessionUseCase.add_clip_to_session`. -/
def add_clip_to_session (st : SessionUseCaseState)
    (video_clip : VideoClip) : SessionUseCaseState :=
  match st.current_session with
  | none => st
  | some s =>
    let s' := { s with video_clips := s.video_clips ++ [video_clip] }
    { current_session := some s', repo_ops := st.repo_ops ++ [.update s'] }

/-- `MonitoringSessionUseCase.add_analysis_to_session`. -/
def add_analysis_to_session (st : SessionUseCaseState)
    (analysis : SecurityAnalysis) : SessionUseCaseState :=
  match st.current_session with
  | none => st
  | some s =>
    let s' := { s with analyses := s.analyses ++ [analysis] }
    { current_session := some s', repo_ops := st.repo_ops ++ [.update s'] }

/-- `MonitoringSessionUseCase.end_monitoring_session`: `None` and no state
change when no session is active; otherwise stamps the end time, marks
COMPLETED, updates the repository, clears `current_session` and returns the
ended session. -/
def end_monitoring_session (st : SessionUseCaseState) (now : Int) :
    Option MonitoringSession × SessionUseCaseState :=
  match st.current_session with
  | none => (none, st)
  | some s =>
    let s' := { s with end_time := some now, status := .completed }
    (some s', { current_session := none, repo_ops := st.repo_ops ++ [.update s'] })

/- ## Theorems: session mutators -/

/-- C10: with no active session the three `add_*_to_session` mutators and
`end_monitoring_session` change nothing (no list append, no repository
call) and `end_monitoring_session` returns `None`; with an active session
each `add` appends exactly one element to its own list and leaves the other
two lists untouched. -/
theorem session_mutators_guard :
    (∀ (st : SessionUseCaseState) (d : PersonDetection),
      st.current_session = none → add_detection_to_session st d = st) ∧
    (∀ (st : SessionUseCaseState) (v : VideoClip),
      st.current_session = none → add_clip_to_session st v = st) ∧
    (∀ (st : SessionUseCaseState) (a : SecurityAnalysis),
      st.current_session = none → add_analysis_to_session st a = st) ∧
    (∀ (st : SessionUseCaseState) (now : Int),
      st.current_session = none → end_monitoring_session st now = (none, st)) ∧
    (∀ (st : SessionUseCaseState) (s : MonitoringSession) (d : PersonDetection),
      st.current_session = some s →
        (add_detection_to_session st d).current_session =
          some { s with detections := s.detections ++ [d] } ∧
        (add_detection_to_session st d).repo_ops =
          st.repo_ops ++ [.update { s with detections := s.detections ++ [d] }]) ∧
    (∀ (st : SessionUseCaseState) (s : MonitoringSession) (v : VideoClip),
      st.current_session = some s →
        (add_clip_to_session st v).current_session =
          some { s with video_clips := s.video_clips ++ [v] } ∧
        (add_clip_to_session st v).repo_ops =
          st.repo_ops ++ [.update { s with video_clips := s.video_clips ++ [v] }]) ∧
    (∀ (st : SessionUseCaseState) (s : MonitoringSession) (a : SecurityAnalysis),
      st.current_session = some s →
        (add_analysis_to_session st a).current_session =
          some { s with analyses := s.analyses ++ [a] } ∧
        (add_analysis_to_session st a).repo_ops =
          st.repo_ops ++ [.update { s with analyses := s.analyses ++ [a] }]) := by
  refine ⟨fun st x h => ?_, fun st x h => ?_, fun st x h => ?_,
    fun st x h => ?_, fun st s x h => ?_, fun st s x h => ?_,
    fun st s x h => ?_⟩ <;>
    simp [add_detection_to_session, add_clip_to_session,
      add_analysis_to_session, end_monitoring_session, h]

/-- Witness for `session_mutators_guard` at a concrete empty state. -/
theorem session_mutators_guard_witness :
    ({ current_session := none, repo_ops := [] } :
        SessionUseCaseState).current_session = none ∧
    add_detection_to_session { current_session := none, repo_ops := [] }
        sampleAnalysis.video_clip.trigger_detection =
      { current_session := none, repo_ops := [] } :=
  ⟨rfl, session_mutators_guard.1 _ _ rfl⟩

/- ## Broadcast payload construction and size capping
(`MobileNotificationService._create_broadcast_notification_payload` and
`_send_broadcast_notification`) -/

/-- Python `str.replace(old, new)` for a non-empty `old`: left-to-right,
non-overlapping. -/
def replaceSub (old new : Str) (s : Str) : Str :=
  match old, s with
  | _, [] => []
  | [], s => s
  | o :: os, c :: rest =>
    if headMatches (o :: os) (c :: rest) then
      new ++ replaceSub (o :: os) new (List.drop os.length rest)
    else
      c :: replaceSub (o :: os) new rest
termination_by s.length
decreasing_by
  · have h := List.length_drop os.length rest
    simp only [h, List.length_cons]
    omega
  · simp

/-- Python `str.split(sep)` for a single-character separator. -/
def splitOnChar (sep : Char) : Str → List Str
  | [] => [[]]
  | c :: rest =>
    let r := splitOnChar sep rest
    if c = sep then [] :: r
    else
      match r with
      | [] => [[c]]
      | h :: t => (c :: h) :: t

/-- `pathlib.PurePath.name` for a plain POSIX path (no trailing
separator): the component after the last `/`. -/
def pathName (p : Str) : Str :=
  (p.reverse.takeWhile (fun c => c ≠ '/')).reverse

/-- Python `str.rfind(ch)`: index of the last occurrence, `-1` if absent. -/
def rfindChar (ch : Char) (s : Str) : Int :=
  match s.reverse.findIdx? (fun c => c == ch) with
  | none => -1
  | some j => (s.length : Int) - 1 - (j : Int)

/-- `pathlib.PurePath.stem`: the name without its final suffix (the suffix
needs a dot at an index `i` with `0 < i < len(name) - 1`). -/
def pathStem (p : Str) : Str :=
  let name := pathName p
  let i := rfindChar '.' name
  if 0 < i ∧ i < (name.length : Int) - 1 then name.take i.toNat else name

/-- `MobileNotificationService._extract_summary`. -/
def extract_summary (analysis_text : Str) : Str :=
  if analysis_text.isEmpty then str "Security event detected"
  else
    let text := stripStr analysis_text
    if containsSub (str "No security incidents detected") text ||
        containsSub (str "Routine surveillance") text then
      str "Routine activity - no security concerns"
    else
      let stripAllMarkers := fun (s : Str) =>
        replaceSub (str "#") [] (replaceSub (str "*") [] (replaceSub (str "**") [] s))
      match ((splitOnChar '.' text).map stripStr).find?
          (fun s => decide (s.length > 20)) with
      | some sentence =>
        let cleaned := stripAllMarkers sentence
        if cleaned.length > 100 then cleaned.take 100 ++ str "..." else cleaned
      | none =>
        let summary := if text.length > 100 then text.take 100 ++ str "..." else text
        stripAllMarkers summary

/-- `MobileNotificationService._extract_camera_name`. -/
def extract_camera_name (file_path : Option Str) : Str :=
  match file_path with
  | none => str "Security Camera"
  | some p =>
    if p.isEmpty then str "Security Camera"
    else
      let path_lower := lowerStr p
      if containsSub (str "front") path_lower ||
          containsSub (str "door") path_lower then str "Front Door Camera"
      else if containsSub (str "back") path_lower ||
          containsSub (str "yard") path_lower then str "Backyard Camera"
      else if containsSub (str "side") path_lower ||
          containsSub (str "gate") path_lower then str "Side Gate Camera"
      else if containsSub (str "garage") path_lower then str "Garage Camera"
      else str "Security Camera"

/-- `SecurityThreatLevel.value` (the enum's string payload). -/
def threatLevelValue : SecurityThreatLevel → Str
  | .low => str "low"
  | .medium => str "medium"
  | .high => str "high"
  | .critical => str "critical"

/-- Lowercase hexadecimal digit. -/
def hexDigitChar (n : Nat) : Char :=
  if n < 10 then Char.ofNat (48 + n) else Char.ofNat (87 + n)

/-- Four-digit lowercase hex rendering used by `\uXXXX` escapes. -/
def hex4 (n : Nat) : Str :=
  [hexDigitChar (n / 4096 % 16), hexDigitChar (n / 256 % 16),
    hexDigitChar (n / 16 % 16), hexDigitChar (n % 16)]

/-- `json.dumps` escaping of one character (`ensure_ascii=True`): printable
ASCII passes through, the short escapes are used for the usual control
characters, everything else becomes `\uXXXX` (a surrogate pair above the
BMP). -/
def jsonEscapeChar (c : Char) : Str :=
  if c = '"' then ['\\', '"']
  else if c = '\\' then ['\\', '\\']
  else if c = '\n' then ['\\', 'n']
  else if c = '\x0d' then ['\\', 'r']
  else if c = '\t' then ['\\', 't']
  else if c.toNat = 8 then ['\\', 'b']
  else if c.toNat = 12 then ['\\', 'f']
  else if 32 ≤ c.toNat ∧ c.toNat ≤ 126 then [c]
  else if c.toNat < 65536 then '\\' :: 'u' :: hex4 c.toNat
  else
    ('\\' :: 'u' :: hex4 (55296 + (c.toNat - 65536) / 1024)) ++
      ('\\' :: 'u' :: hex4 (56320 + (c.toNat - 65536) % 1024))

/-- `json.dumps` of a string. -/
def jsonStr (s : Str) : Str :=
  '"' :: (s.map jsonEscapeChar).flatten ++ ['"']

/-- `json.dumps` of `None` / a string. -/
def jsonOptStr : Option Str → Str
  | none => str "null"
  | some s => jsonStr s

/-- `json.dumps` of a list of strings with `separators=(',', ':')`. -/
def jsonStrList (xs : List Str) : Str :=
  '[' :: List.intercalate [','] (xs.map jsonStr) ++ [']']

/-- `json.dumps` of a boolean. -/
def jsonBool : Bool → Str
  | true => str "true"
  | false => str "false"

/-- An opening brace character (JSON object start). -/
def lbrace : Char := Char.ofNat 123

/-- A closing brace character (JSON object end). -/
def rbrace : Char := Char.ofNat 125

/-- One `"key":value` member with `separators=(',', ':')`. -/
def jsonField (key : Str) (value : Str) : Str := jsonStr key ++ [':'] ++ value

/-- A JSON object from already-serialized members, compact separators,
insertion order preserved (as `json.dumps` does for a Python dict). -/
def jsonObj (fields : List Str) : Str :=
  lbrace :: List.intercalate [','] fields ++ [rbrace]

/-- The dict built by `_create_broadcast_notification_payload`, field for
field and in insertion order.  `confidence` holds the `json.dumps`
rendering of the float. -/
structure BroadcastPayload where
  type_ : Str
  id : Str
  timestamp : Str
  threatLevel : Str
  confidence : Str
  summary : Str
  camera : Str
  keywords : List Str
  video_id : Option Str
  video_filename : Option Str
  is_threat_detected : Bool
  api_endpoint : Option Str
  server_ip : Str
  server_port : Nat
deriving DecidableEq, Repr

/-- Runtime values the service reads from its environment while building a
payload: the two clock renderings, `self.server_ip`,
`self.notification_port`, and the JSON float rendering of the confidence. -/
structure NotifyRuntimeEnv where
  nowIso : Str
  nowCompact : Str
  server_ip : Str
  notification_port : Nat
  confRender : ℚ → Str

/-- `MobileNotificationService._create_broadcast_notification_payload`. -/
def create_broadcast_notification_payload (env : NotifyRuntimeEnv)
    (analysis : SecurityAnalysis) (video_path : Option Str) : BroadcastPayload :=
  let video_filename :=
    match video_path with
    | some p => if p.isEmpty then none else some (pathName p)
    | none => none
  let video_id :=
    match video_path with
    | some p => if p.isEmpty then none else some (pathStem p)
    | none => none
  let analysis_summary := extract_summary analysis.analysis_text
  { type_ := str "security_alert",
    id :=
      match video_id with
      | some v => if v.isEmpty then str "alert_" ++ env.nowCompact else v
      | none => str "alert_" ++ env.nowCompact,
    timestamp := env.nowIso ++ ['Z'],
    threatLevel := upperStr (threatLevelValue analysis.threat_level),
    confidence := env.confRender analysis.confidence,
    summary := analysis_summary,
    camera := extract_camera_name video_path,
    keywords := if analysis.keywords.isEmpty then [] else analysis.keywords.take 3,
    video_id := video_id,
    video_filename := video_filename,
    is_threat_detected := is_threat_detected analysis,
    api_endpoint :=
      match video_id with
      | some v =>
        if v.isEmpty then none
        else some (str "http://" ++ env.server_ip ++ [':'] ++
          natToStr env.notification_port ++ str "/api/security/videos/" ++ v)
      | none => none,
    server_ip := env.server_ip,
    server_port := env.notification_port }

/-- `json.dumps(payload, separators=(',', ':'))` for the broadcast dict. -/
def serialize_broadcast_payload (p : BroadcastPayload) : Str :=
  jsonObj
    [jsonField (str "type") (jsonStr p.type_),
     jsonField (str "id") (jsonStr p.id),
     jsonField (str "timestamp") (jsonStr p.timestamp),
     jsonField (str "threatLevel") (jsonStr p.threatLevel),
     jsonField (str "confidence") p.confidence,
     jsonField (str "summary") (jsonStr p.summary),
     jsonField (str "camera") (jsonStr p.camera),
     jsonField (str "keywords") (jsonStrList p.keywords),
     jsonField (str "video_id") (jsonOptStr p.video_id),
     jsonField (str "video_filename") (jsonOptStr p.video_filename),
     jsonField (str "is_threat_detected") (jsonBool p.is_threat_detected),
     jsonField (str "api_endpoint") (jsonOptStr p.api_endpoint),
     jsonField (str "server_info")
       (jsonObj [jsonField (str "ip") (jsonStr p.server_ip),
                 jsonField (str "port") (natToStr p.server_port)])]

/-- The `compact_payload` dict built inside `_send_broadcast_notification`
when the serialized message exceeds 1400 bytes. -/
structure CompactPayload where
  type_ : Str
  id : Str
  timestamp : Str
  threatLevel : Str
  confidence : Str
  summary : Str
  camera : Str
  keywords : List Str
  server_ip : Str
  server_port : Nat
deriving DecidableEq, Repr

/-- Construction of the compact variant: summary truncated to 100
characters, keywords truncated to 2, the remaining retained fields copied. -/
def compact_payload (p : BroadcastPayload) : CompactPayload :=
  { type_ := p.type_, id := p.id, timestamp := p.timestamp,
    threatLevel := p.threatLevel, confidence := p.confidence,
    summary := p.summary.take 100, camera := p.camera,
    keywords := p.keywords.take 2, server_ip := p.server_ip,
    server_port := p.server_port }

/-- `json.dumps(compact_payload, separators=(',', ':'))`. -/
def serialize_compact_payload (c : CompactPayload) : Str :=
  jsonObj
    [jsonField (str "type") (jsonStr c.type_),
     jsonField (str "id") (jsonStr c.id),
     jsonField (str "timestamp") (jsonStr c.timestamp),
     jsonField (str "threatLevel") (jsonStr c.threatLevel),
     jsonField (str "confidence") c.confidence,
     jsonField (str "summary") (jsonStr c.summary),
     jsonField (str "camera") (jsonStr c.camera),
     jsonField (str "keywords") (jsonStrList c.keywords),
     jsonField (str "server_info")
       (jsonObj [jsonField (str "ip") (jsonStr c.server_ip),
                 jsonField (str "port") (natToStr c.server_port)])]

/-- The UDP message `_send_broadcast_notification` actually transmits:
the serialized payload, replaced by the serialized compact variant when it
measures over 1400 bytes — with no size re-check of the compact variant. -/
def send_broadcast_message (p : BroadcastPayload) : Str :=
  let message := serialize_broadcast_payload p
  if message.length > 1400 then serialize_compact_payload (compact_payload p)
  else message

/- ## Theorems: broadcast size capping -/

/-- C6 (amended): when the serialized broadcast payload exceeds 1400 bytes
the compact variant — summary truncated to 100 characters, keywords to 2,
with id, timestamp and threat level preserved — is serialized and sent in
its place, with no second size check; when it does not exceed the cap it is
sent as-is and the sent message respects the cap. -/
theorem broadcast_size_cap_behaviour :
    ∀ p : BroadcastPayload,
      ((serialize_broadcast_payload p).length > 1400 →
        send_broadcast_message p =
          serialize_compact_payload (compact_payload p) ∧
        (compact_payload p).id = p.id ∧
        (compact_payload p).timestamp = p.timestamp ∧
        (compact_payload p).threatLevel = p.threatLevel ∧
        (compact_payload p).summary = p.summary.take 100 ∧
        (compact_payload p).keywords = p.keywords.take 2) ∧
      (¬ (serialize_broadcast_payload p).length > 1400 →
        send_broadcast_message p = serialize_broadcast_payload p ∧
        (send_broadcast_message p).length ≤ 1400) := by
  intro p
  by_cases h : (serialize_broadcast_payload p).length > 1400
  · refine ⟨fun _ => ⟨?_, rfl, rfl, rfl, rfl, rfl⟩, fun hc => absurd h hc⟩
    simp [send_broadcast_message, h]
  · refine ⟨fun hc => absurd hc h, fun _ => ⟨?_, ?_⟩⟩
    · simp [send_broadcast_message, h]
    · simp [send_broadcast_message, h]
      omega

set_option maxRecDepth 8000 in
/-- Witness for `broadcast_size_cap_behaviour`: a small payload is sent
unchanged. -/
theorem broadcast_size_cap_behaviour_witness :
    (¬ (serialize_broadcast_payload
        { type_ := str "security_alert", id := str "a", timestamp := str "t",
          threatLevel := str "LOW", confidence := str "0.5", summary := str "s",
          camera := str "c", keywords := [], video_id := none,
          video_filename := none, is_threat_detected := false,
          api_endpoint := none, server_ip := str "ip",
          server_port := 8888 }).length > 1400) ∧
    send_broadcast_message
        { type_ := str "security_alert", id := str "a", timestamp := str "t",
          threatLevel := str "LOW", confidence := str "0.5", summary := str "s",
          camera := str "c", keywords := [], video_id := none,
          video_filename := none, is_threat_detected := false,
          api_endpoint := none, server_ip := str "ip", server_port := 8888 } =
      serialize_broadcast_payload
        { type_ := str "security_alert", id := str "a", timestamp := str "t",
          threatLevel := str "LOW", confidence := str "0.5", summary := str "s",
          camera := str "c", keywords := [], video_id := none,
          video_filename := none, is_threat_detected := false,
          api_endpoint := none, server_ip := str "ip", server_port := 8888 } :=
  ⟨by decide,
    ((broadcast_size_cap_behaviour
      { type_ := str "security_alert", id := str "a", timestamp := str "t",
        threatLevel := str "LOW", confidence := str "0.5", summary := str "s",
        camera := str "c", keywords := [], video_id := none,
        video_filename := none, is_threat_detected := false,
        api_endpoint := none, server_ip := str "ip",
        server_port := 8888 }).2 (by decide)).1⟩

/-- Runtime environment for the size-cap counterexample. -/
def oversizedEnv : NotifyRuntimeEnv :=
  { nowIso := str "2026-10-12T12:00:00.000000",
    nowCompact := str "20261012_120000",
    server_ip := str "192.168.1.10", notification_port := 8888,
    confRender := fun _ => str "0.9" }

/-- An analysis whose keyword list holds one 1200-character keyword (the
keyword extractor bounds the count at 5 but not the length). -/
def oversizedAnalysis : SecurityAnalysis :=
  { sampleAnalysis with analysis_text := [], keywords := [List.replicate 1200 'w'] }

/-- The clip path for the size-cap counterexample. -/
def oversizedPath : Option Str := some (str "recordings/cam.mp4")

set_option maxRecDepth 100000 in
/-- C6 (counterexample): for this genuine payload the unconstrained
serialization measures over 1400 bytes, so the compact variant is sent —
but the compact variant still serializes to more than 1400 bytes (the long
keyword survives `keywords[:2]`), so the message actually sent exceeds the
cap. -/
theorem broadcast_size_cap_counterexample :
    1400 <
      (send_broadcast_message
        (create_broadcast_notification_payload oversizedEnv oversizedAnalysis
          oversizedPath)).length ∧
    send_broadcast_message
        (create_broadcast_notification_payload oversizedEnv oversizedAnalysis
          oversizedPath) =
      serialize_compact_payload
        (compact_payload
          (create_broadcast_notification_payload oversizedEnv oversizedAnalysis
            oversizedPath)) := by
  constructor
  · decide
  · have h : 1400 <
        (serialize_broadcast_payload
          (create_broadcast_notification_payload oversizedEnv oversizedAnalysis
            oversizedPath)).length := by decide
    simp [send_broadcast_message, h]
